import Mathlib

/-!
Verification development for the ScubaAI conversational backend
(Flask routes in `chat_routes.py`, `settings_routes.py`, service layer in
`ai_service.py`).  The HTTP layer, ORM and the Groq client are shallowly
embedded: the relational store is an explicit `DB` value threaded through
each route handler, the upstream completion provider is an oracle
parameter, and every handler is a pure function from request data and
database state to a response and a new database state.
-/

namespace ScubaAI

/-- Python `str.strip()` (drop whitespace on both ends), as used by the
marshmallow validators and by the routes before persisting text. -/
def pyStrip (s : String) : String :=
  String.mk (((s.toList.dropWhile Char.isWhitespace).reverse.dropWhile
    Char.isWhitespace).reverse)

/-- Python slicing `s[:n]` on a `str`: the first `n` characters. -/
def pyTake (s : String) (n : Nat) : String := String.mk (s.toList.take n)

/-- The authenticated principal (`current_user` from flask_jwt_extended).
Only the fields the routes consult are modelled. -/
structure User where
  id : Nat
  is_admin : Bool
deriving Repr, DecidableEq

/-- Row of the `Conversation` model, with the fields the routes touch.
`updated_at` is a logical clock value (`db.func.now()` is modelled by the
`now` field of `DB`). -/
structure Conversation where
  id : Nat
  user_id : Nat
  title : String
  updated_at : Nat
deriving Repr, DecidableEq

/-- Row of the `Message` model.  `created_at` ordering is represented by
insertion order in `DB.messages` (ids are assigned from a monotone
counter, so insertion order and `created_at` ascending coincide). -/
structure Message where
  id : Nat
  conversation_id : Nat
  role : String
  content : String
deriving Repr, DecidableEq

/-- Row of the `CustomInstruction` model. -/
structure CustomInstruction where
  id : Nat
  user_id : Nat
  name : String
  content : String
  is_default : Bool
  updated_at : Nat
deriving Repr, DecidableEq

/-- Row of the `SystemSetting` model. -/
structure SystemSetting where
  id : Nat
  key : String
  value : String
  description : Option String
  updated_at : Nat
deriving Repr, DecidableEq

/-- The relational store plus the id sequences and the database clock
(`db.func.now()`). -/
structure DB where
  conversations : List Conversation
  messages : List Message
  instructions : List CustomInstruction
  settings : List SystemSetting
  nextConversationId : Nat
  nextMessageId : Nat
  nextInstructionId : Nat
  nextSettingId : Nat
  now : Nat
deriving Repr, DecidableEq

/-- A role/content dict as sent to the completion provider and as used
for the conversation context (`context_messages` in the routes). -/
structure ChatMessage where
  role : String
  content : String
deriving Repr, DecidableEq

/-- Response bodies the modelled endpoints can produce, tagged by their
JSON payload shape. -/
inductive Body where
  | validationError
  | conversationNotFound
  | customInstructionNotFound
  | messageNotFound
  | settingNotFound
  | adminRequired
  | keyExists
  | aiServiceError (text : String)
  | conversations (items : List Conversation)
  | conversationCreated (c : Conversation)
  | conversationWithMessages (c : Conversation) (msgs : List Message)
  | chatTurn (user_message ai_message : Message)
  | streamOpened
  | deleted
  | titleUpdated (c : Conversation)
  | instructionCreated (i : CustomInstruction)
  | instructionUpdated (i : CustomInstruction)
  | instructionSetDefault (i : CustomInstruction)
  | settingsList (items : List SystemSetting)
  | settingItem (s : SystemSetting)
  | settingCreated (s : SystemSetting)
  | settingUpdated (s : SystemSetting)
deriving Repr, DecidableEq

/-- An HTTP response: status code and body tag. -/
structure Resp where
  status : Nat
  body : Body
deriving Repr, DecidableEq

/-! ## Request bodies and marshmallow schema loading

A raw JSON body is modelled with `Option` fields (`none` = key absent).
`load` either rejects (`none`, the route answers 400 `Validation error`)
or returns the loaded data. -/

/-- Raw body for `POST /conversations` and `PUT /conversations/<id>/title`
(`CreateConversationSchema`). -/
structure ConversationBody where
  title : Option String
deriving Repr, DecidableEq

/-- `CreateConversationSchema.load`: `title` is required and must have
non-empty `strip()`. -/
def load_create_conversation (b : ConversationBody) : Option String :=
  match b.title with
  | none => none
  | some t => if (pyStrip t).length > 0 then some t else none

/-- Raw body for the message endpoints (`SendMessageSchema`).  The outer
`Option` on `custom_instruction_id` is key presence, the inner one is an
explicit JSON `null` (the field is `allow_none`). -/
structure SendMessageBody where
  content : Option String
  custom_instruction_id : Option (Option Int)
deriving Repr, DecidableEq

/-- `SendMessageSchema.load`: `content` is required with non-empty
`strip()`; `custom_instruction_id` is optional and passed through. -/
def load_send_message (b : SendMessageBody) : Option (String × Option (Option Int)) :=
  match b.content with
  | none => none
  | some c => if (pyStrip c).length > 0 then some (c, b.custom_instruction_id) else none

/-- Python truthiness of `data.get('custom_instruction_id')`: the id is
acted on only when the key is present, non-null and non-zero. -/
def ciiTruthy : Option (Option Int) → Option Int
  | some (some n) => if n = 0 then none else some n
  | some none => none
  | none => none

/-! ## AI service (`ai_service.py`) -/

/-- The default system message of `AIService._prepare_messages`. -/
def default_system_prompt : String :=
  "You are ScubaAI, a helpful and knowledgeable assistant. Provide accurate, helpful, and engaging responses to user queries."

/-- `AIService._prepare_messages`: prepend exactly one system message;
its content is the custom instruction when that is a truthy (non-empty)
string, otherwise the default prompt.  The conversation messages follow
unchanged. -/
def prepare_messages (messages : List ChatMessage) (custom_instruction : Option String) :
    List ChatMessage :=
  match custom_instruction with
  | some ci =>
      if ci = "" then ⟨"system", default_system_prompt⟩ :: messages
      else ⟨"system", ci⟩ :: messages
  | none => ⟨"system", default_system_prompt⟩ :: messages

/-- `AIService.get_response`: call the provider on the prepared messages;
any provider exception is re-raised as
`Failed to get AI response: <original>`.  The Groq client itself is the
oracle `provider`. -/
def AIService_get_response (provider : List ChatMessage → Except String String)
    (messages : List ChatMessage) (custom_instruction : Option String) :
    Except String String :=
  match provider (prepare_messages messages custom_instruction) with
  | .ok r => .ok r
  | .error e => .error ("Failed to get AI response: " ++ e)

/-! ## Chat routes (`chat_routes.py`) -/

/-- The per-conversation history as the routes build `context_messages`:
the conversation's messages ordered by `created_at` ascending (insertion
order here), projected to role/content dicts. -/
def conversation_history (db : DB) (conversation_id : Nat) : List ChatMessage :=
  (db.messages.filter (fun m => m.conversation_id == conversation_id)).map
    (fun m => ⟨m.role, m.content⟩)

/-- The freshly built user `Message` row in `send_message` and
`stream_message`. -/
def new_user_message (db : DB) (conversation_id : Nat) (content : String) : Message :=
  ⟨db.nextMessageId, conversation_id, "user", content⟩

/-- Database state after `db.session.add(user_message)` is flushed (in
`send_message` the flush happens when the history query autoflushes; in
`stream_message` it is explicitly committed). -/
def stage_user_message (db : DB) (conversation_id : Nat) (content : String) : DB :=
  { db with
      messages := db.messages ++ [new_user_message db conversation_id content],
      nextMessageId := db.nextMessageId + 1 }

/-- Set the conversation's `updated_at` to the database clock, as
`conversation.updated_at = db.func.now()` does. -/
def touch_conversation (db : DB) (conversation_id : Nat) : DB :=
  { db with
      conversations := db.conversations.map fun c =>
        if c.id == conversation_id then { c with updated_at := db.now } else c }

/-- Ownership lookup used by every conversation-scoped route:
`Conversation.query.filter_by(id=conversation_id, user_id=current_user.id).first()`. -/
def find_owned_conversation (db : DB) (u : User) (conversation_id : Nat) :
    Option Conversation :=
  db.conversations.find? (fun c => c.id == conversation_id && c.user_id == u.id)

/-- Custom-instruction resolution in `send_message`: when a truthy id is
supplied, look it up scoped to the user and fail (404) when absent. -/
def resolve_custom_instruction (db : DB) (u : User) (cii : Option (Option Int)) :
    Except Unit (Option CustomInstruction) :=
  match ciiTruthy cii with
  | none => .ok none
  | some iid =>
      match db.instructions.find? (fun i => ((i.id : Int) == iid) && (i.user_id == u.id)) with
      | none => .error ()
      | some i => .ok (some i)

/-- `GET /conversations`: all conversations of the current user (the
route additionally orders them by `updated_at` descending; ordering is
not modelled, membership is). -/
def get_conversations (db : DB) (u : User) : Resp :=
  ⟨200, .conversations (db.conversations.filter (fun c => c.user_id == u.id))⟩

/-- `POST /conversations`. -/
def create_conversation (db : DB) (u : User) (body : ConversationBody) : Resp × DB :=
  match load_create_conversation body with
  | none => (⟨400, .validationError⟩, db)
  | some title =>
      let conversation : Conversation :=
        ⟨db.nextConversationId, u.id, pyStrip title, db.now⟩
      (⟨201, .conversationCreated conversation⟩,
       { db with
           conversations := db.conversations ++ [conversation],
           nextConversationId := db.nextConversationId + 1 })

/-- `GET /conversations/<id>`. -/
def get_conversation (db : DB) (u : User) (conversation_id : Nat) : Resp :=
  match find_owned_conversation db u conversation_id with
  | none => ⟨404, .conversationNotFound⟩
  | some conversation =>
      ⟨200, .conversationWithMessages conversation
        (db.messages.filter (fun m => m.conversation_id == conversation_id))⟩

/-- Result of the non-streaming chat turn: response, final database
state, and the message list actually sent to the provider (`none` when
the provider was never called). -/
structure SendResult where
  resp : Resp
  db : DB
  providerCall : Option (List ChatMessage)
deriving Repr, DecidableEq

/-- `POST /conversations/<id>/messages` (`send_message`): validate, check
ownership, resolve the optional custom instruction (404 when it does not
resolve), stage the user message, send the prepared context to the
provider; on success persist both messages and touch `updated_at` in one
commit, on provider failure roll the session back (the staged user
message is discarded) and answer 500. -/
def send_message (db : DB) (u : User) (conversation_id : Nat)
    (body : SendMessageBody) (provider : List ChatMessage → Except String String) :
    SendResult :=
  match load_send_message body with
  | none => ⟨⟨400, .validationError⟩, db, none⟩
  | some data =>
      match find_owned_conversation db u conversation_id with
      | none => ⟨⟨404, .conversationNotFound⟩, db, none⟩
      | some _conversation =>
          match resolve_custom_instruction db u data.2 with
          | .error _ => ⟨⟨404, .customInstructionNotFound⟩, db, none⟩
          | .ok custom_instruction =>
              let user_message := new_user_message db conversation_id data.1
              let staged := stage_user_message db conversation_id data.1
              let context_messages := conversation_history staged conversation_id
              let system_instruction := custom_instruction.map (fun i => i.content)
              let sent := prepare_messages context_messages system_instruction
              match AIService_get_response provider context_messages system_instruction with
              | .error e =>
                  ⟨⟨500, .aiServiceError ("AI service error: " ++ e)⟩, db, some sent⟩
              | .ok ai_response =>
                  let ai_message : Message :=
                    ⟨staged.nextMessageId, conversation_id, "assistant", ai_response⟩
                  let committed :=
                    touch_conversation
                      { staged with
                          messages := staged.messages ++ [ai_message],
                          nextMessageId := staged.nextMessageId + 1 }
                      conversation_id
                  ⟨⟨200, .chatTurn user_message ai_message⟩, committed, some sent⟩

/-- Result of the streaming chat turn: the (early) response, the emitted
SSE event lines, the final database state, and the provider call. -/
structure StreamResult where
  resp : Resp
  events : List String
  db : DB
  providerCall : Option (List ChatMessage)
deriving Repr, DecidableEq

/-- `POST /conversations/<id>/stream` (`stream_message`): validate, check
ownership, look the optional custom instruction up WITHOUT a 404 on
failure, add and COMMIT the user message, then stream.  The provider
oracle yields `chunks` and then either finishes (`stream_error = none`) —
the generator persists the concatenated chunks as the assistant message,
touches `updated_at` and emits `[DONE]` — or raises with the given
message, which `AIService.stream_response` wraps and the generator turns
into a final `[ERROR]` event without persisting an assistant message. -/
def stream_message (db : DB) (u : User) (conversation_id : Nat)
    (body : SendMessageBody) (chunks : List String) (stream_error : Option String) :
    StreamResult :=
  match load_send_message body with
  | none => ⟨⟨400, .validationError⟩, [], db, none⟩
  | some data =>
      match find_owned_conversation db u conversation_id with
      | none => ⟨⟨404, .conversationNotFound⟩, [], db, none⟩
      | some _conversation =>
          let custom_instruction : Option CustomInstruction :=
            match ciiTruthy data.2 with
            | none => none
            | some iid =>
                db.instructions.find?
                  (fun i => ((i.id : Int) == iid) && (i.user_id == u.id))
          let committed := stage_user_message db conversation_id data.1
          let context_messages := conversation_history committed conversation_id
          let system_instruction := custom_instruction.map (fun i => i.content)
          let sent := prepare_messages context_messages system_instruction
          let chunk_events := chunks.map (fun c => "data: " ++ c ++ "\n\n")
          match stream_error with
          | some e =>
              ⟨⟨200, .streamOpened⟩,
               chunk_events ++
                 ["data: [ERROR]: Failed to stream AI response: " ++ e ++ "\n\n"],
               committed, some sent⟩
          | none =>
              let full_response := String.join chunks
              let ai_message : Message :=
                ⟨committed.nextMessageId, conversation_id, "assistant", full_response⟩
              let committed2 :=
                touch_conversation
                  { committed with
                      messages := committed.messages ++ [ai_message],
                      nextMessageId := committed.nextMessageId + 1 }
                  conversation_id
              ⟨⟨200, .streamOpened⟩,
               chunk_events ++ ["data: [DONE]\n\n"],
               committed2, some sent⟩

/-- `DELETE /conversations/<id>`: delete the conversation and (per the
model's cascade, see the route docstring) its messages. -/
def delete_conversation (db : DB) (u : User) (conversation_id : Nat) : Resp × DB :=
  match find_owned_conversation db u conversation_id with
  | none => (⟨404, .conversationNotFound⟩, db)
  | some _conversation =>
      (⟨200, .deleted⟩,
       { db with
           conversations := db.conversations.filter (fun c => !(c.id == conversation_id)),
           messages := db.messages.filter (fun m => !(m.conversation_id == conversation_id)) })

/-- `PUT /conversations/<id>/title`. -/
def update_conversation_title (db : DB) (u : User) (conversation_id : Nat)
    (body : ConversationBody) : Resp × DB :=
  match load_create_conversation body with
  | none => (⟨400, .validationError⟩, db)
  | some title =>
      match find_owned_conversation db u conversation_id with
      | none => (⟨404, .conversationNotFound⟩, db)
      | some conversation =>
          let updated := { conversation with title := pyStrip title, updated_at := db.now }
          (⟨200, .titleUpdated updated⟩,
           { db with
               conversations := db.conversations.map fun c =>
                 if c.id == conversation_id then
                   { c with title := pyStrip title, updated_at := db.now }
                 else c })

/-- `DELETE /conversations/<id>/messages/<mid>`. -/
def delete_message (db : DB) (u : User) (conversation_id message_id : Nat) : Resp × DB :=
  match find_owned_conversation db u conversation_id with
  | none => (⟨404, .conversationNotFound⟩, db)
  | some _conversation =>
      match db.messages.find?
          (fun m => m.id == message_id && m.conversation_id == conversation_id) with
      | none => (⟨404, .messageNotFound⟩, db)
      | some _message =>
          (⟨200, .deleted⟩,
           { db with messages := db.messages.filter (fun m => !(m.id == message_id)) })

/-! ## Settings routes (`settings_routes.py`) -/

/-- Raw body for the custom-instruction endpoints
(`CustomInstructionSchema`). -/
structure CustomInstructionBody where
  name : Option String
  content : Option String
  is_default : Option Bool
deriving Repr, DecidableEq

/-- `CustomInstructionSchema.load`: `name` and `content` are required
with non-empty `strip()`; `is_default` is optional. -/
def load_custom_instruction (b : CustomInstructionBody) :
    Option (String × String × Option Bool) :=
  match b.name, b.content with
  | some n, some c =>
      if (pyStrip n).length > 0 && (pyStrip c).length > 0 then
        some (n, c, b.is_default)
      else none
  | _, _ => none

/-- Raw body for the system-setting endpoints (`SystemSettingSchema`).
The outer `Option` on `description` is key presence, the inner one an
explicit JSON `null` (the field is `allow_none`). -/
structure SystemSettingBody where
  key : Option String
  value : Option String
  description : Option (Option String)
deriving Repr, DecidableEq

/-- `SystemSettingSchema.load`: `key` is required with non-empty
`strip()`, `value` is required, `description` is optional. -/
def load_system_setting (b : SystemSettingBody) :
    Option (String × String × Option (Option String)) :=
  match b.key, b.value with
  | some k, some v =>
      if (pyStrip k).length > 0 then some (k, v, b.description) else none
  | _, _ => none

/-- Modelled from the spec: `services/settings_service.py`
(`SettingsService.unset_default_instruction`) is not among the provided
sources — only its callers in `settings_routes.py` are.  Following the
spec's description of per-user custom system-instructions with a single
default (and the call sites, which invoke it to "unset any existing
default instruction for this user"), it clears `is_default` on every
custom instruction belonging to the given user. -/
def unset_default_instruction (user_id : Nat) (db : DB) : DB :=
  { db with
      instructions := db.instructions.map fun i =>
        if i.user_id == user_id then { i with is_default := false } else i }

/-- `POST /instructions` (`create_custom_instruction`): validate; when
the request marks the new instruction default, first unset the user's
existing default; then insert. -/
def create_custom_instruction (db : DB) (u : User) (body : CustomInstructionBody) :
    Resp × DB :=
  match load_custom_instruction body with
  | none => (⟨400, .validationError⟩, db)
  | some data =>
      let wants_default := data.2.2.getD false
      let db1 := if wants_default then unset_default_instruction u.id db else db
      let instruction : CustomInstruction :=
        ⟨db.nextInstructionId, u.id, pyStrip data.1, pyStrip data.2.1,
         wants_default, db.now⟩
      (⟨201, .instructionCreated instruction⟩,
       { db1 with
           instructions := db1.instructions ++ [instruction],
           nextInstructionId := db.nextInstructionId + 1 })

/-- `PUT /instructions/<id>` (`update_custom_instruction`): validate,
look the instruction up scoped to the user; when the request turns a
non-default instruction into the default, first unset the user's
existing default; then assign the fields (`is_default` falls back to the
instruction's current value when absent from the request). -/
def update_custom_instruction (db : DB) (u : User) (instruction_id : Nat)
    (body : CustomInstructionBody) : Resp × DB :=
  match load_custom_instruction body with
  | none => (⟨400, .validationError⟩, db)
  | some data =>
      match db.instructions.find?
          (fun i => i.id == instruction_id && i.user_id == u.id) with
      | none => (⟨404, .customInstructionNotFound⟩, db)
      | some instruction =>
          let db1 :=
            if data.2.2.getD false && !instruction.is_default then
              unset_default_instruction u.id db
            else db
          let new_default := data.2.2.getD instruction.is_default
          let updated :=
            { instruction with
                name := pyStrip data.1, content := pyStrip data.2.1,
                is_default := new_default, updated_at := db.now }
          (⟨200, .instructionUpdated updated⟩,
           { db1 with
               instructions := db1.instructions.map fun i =>
                 if i.id == instruction_id && i.user_id == u.id then
                   { i with
                       name := pyStrip data.1, content := pyStrip data.2.1,
                       is_default := new_default, updated_at := db.now }
                 else i })

/-- `POST /instructions/<id>/set-default` (`set_default_instruction`):
look the instruction up scoped to the user, unset the user's existing
default, mark this one default. -/
def set_default_instruction (db : DB) (u : User) (instruction_id : Nat) :
    Resp × DB :=
  match db.instructions.find?
      (fun i => i.id == instruction_id && i.user_id == u.id) with
  | none => (⟨404, .customInstructionNotFound⟩, db)
  | some instruction =>
      let db1 := unset_default_instruction u.id db
      let updated := { instruction with is_default := true, updated_at := db.now }
      (⟨200, .instructionSetDefault updated⟩,
       { db1 with
           instructions := db1.instructions.map fun i =>
             if i.id == instruction_id && i.user_id == u.id then
               { i with is_default := true, updated_at := db.now }
             else i })

/-- `GET /system` (`get_system_settings`): all system settings; the
route requires only a valid JWT, not admin status. -/
def get_system_settings (db : DB) (_u : User) : Resp :=
  ⟨200, .settingsList db.settings⟩

/-- `POST /system` (`create_system_setting`): admin gate first, then
validation, then a 409 duplicate-key check, then insert. -/
def create_system_setting (db : DB) (u : User) (body : SystemSettingBody) :
    Resp × DB :=
  if !u.is_admin then (⟨403, .adminRequired⟩, db)
  else
    match load_system_setting body with
    | none => (⟨400, .validationError⟩, db)
    | some data =>
        match db.settings.find? (fun s => s.key == data.1) with
        | some _ => (⟨409, .keyExists⟩, db)
        | none =>
            let setting : SystemSetting :=
              ⟨db.nextSettingId, pyStrip data.1, data.2.1, data.2.2.getD none, db.now⟩
            (⟨201, .settingCreated setting⟩,
             { db with
                 settings := db.settings ++ [setting],
                 nextSettingId := db.nextSettingId + 1 })

/-- `PUT /system/<id>` (`update_system_setting`): admin gate first, then
validation, then lookup by primary key; `description` falls back to the
stored value when absent from the request. -/
def update_system_setting (db : DB) (u : User) (setting_id : Nat)
    (body : SystemSettingBody) : Resp × DB :=
  if !u.is_admin then (⟨403, .adminRequired⟩, db)
  else
    match load_system_setting body with
    | none => (⟨400, .validationError⟩, db)
    | some data =>
        match db.settings.find? (fun s => s.id == setting_id) with
        | none => (⟨404, .settingNotFound⟩, db)
        | some setting =>
            let updated :=
              { setting with
                  key := pyStrip data.1, value := data.2.1,
                  description := data.2.2.getD setting.description,
                  updated_at := db.now }
            (⟨200, .settingUpdated updated⟩,
             { db with
                 settings := db.settings.map fun s =>
                   if s.id == setting_id then
                     { s with
                         key := pyStrip data.1, value := data.2.1,
                         description := data.2.2.getD s.description,
                         updated_at := db.now }
                   else s })

/-- `DELETE /system/<id>` (`delete_system_setting`): admin gate first,
then lookup by primary key, then delete. -/
def delete_system_setting (db : DB) (u : User) (setting_id : Nat) : Resp × DB :=
  if !u.is_admin then (⟨403, .adminRequired⟩, db)
  else
    match db.settings.find? (fun s => s.id == setting_id) with
    | none => (⟨404, .settingNotFound⟩, db)
    | some _setting =>
        (⟨200, .deleted⟩,
         { db with settings := db.settings.filter (fun s => !(s.id == setting_id)) })

/-- `GET /system/<key>` (`get_system_setting_by_key`): lookup by key,
requiring only a valid JWT. -/
def get_system_setting_by_key (db : DB) (_u : User) (key : String) : Resp :=
  match db.settings.find? (fun s => s.key == key) with
  | none => ⟨404, .settingNotFound⟩
  | some setting => ⟨200, .settingItem setting⟩

/-! ## Conversation-title generation (`AIService.generate_conversation_title`) -/

/-- The content of the first message whose role is `user`
(`msg.get('content', '')` on the first such dict). -/
def first_user_content (messages : List ChatMessage) : Option String :=
  (messages.find? (fun m => m.role == "user")).map (fun m => m.content)

/-- `AIService.generate_conversation_title`.  `ai_title` is the oracle
for the title-generation completion: `some t` is the raw model output
(the code strips it and truncates to 47 characters plus an ellipsis when
longer than 50), `none` means the AI call raised, taking the `except`
fallback (`first_user_message[:47] + "..."` when longer than 50). -/
def generate_conversation_title (messages : List ChatMessage)
    (ai_title : Option String) : String :=
  if messages.isEmpty then "New Conversation"
  else
    match first_user_content messages with
    | none => "New Conversation"
    | some first_user_message =>
        if first_user_message = "" then "New Conversation"
        else if first_user_message.length ≤ 50 then first_user_message
        else
          match ai_title with
          | some t =>
              let title := pyStrip t
              if title.length > 50 then pyTake title 47 ++ "..." else title
          | none =>
              if first_user_message.length > 50 then
                pyTake first_user_message 47 ++ "..."
              else first_user_message

/-- The instructions of a user currently flagged as default. -/
def defaults_of (user_id : Nat) (l : List CustomInstruction) : List CustomInstruction :=
  l.filter (fun i => i.user_id == user_id && i.is_default)

/-- The per-user invariant behind the set-default logic: a user has at
most one custom instruction with `is_default` set. -/
def at_most_one_default (user_id : Nat) (l : List CustomInstruction) : Prop :=
  (defaults_of user_id l).length ≤ 1

/-! ## Helper lemmas -/

/-- A string has length zero exactly when it is empty. -/
theorem string_length_eq_zero_iff (s : String) : s.length = 0 ↔ s = "" := by
  constructor
  · intro h
    cases s with
    | mk data =>
        cases data with
        | nil => rfl
        | cons a l => simp [String.length] at h
  · intro h
    subst h
    rfl

/-! ## C6 -/

/-- C6: a request from an authenticated non-admin user never creates,
updates, or deletes a system setting — the three mutating `/system`
endpoints answer 403 `Admin access required` before any validation or
database change, leaving the database untouched. -/
theorem system_settings_admin_gate (db : DB) (u : User) (body : SystemSettingBody)
    (setting_id : Nat) (h : u.is_admin = false) :
    create_system_setting db u body = (⟨403, .adminRequired⟩, db) ∧
    update_system_setting db u setting_id body = (⟨403, .adminRequired⟩, db) ∧
    delete_system_setting db u setting_id = (⟨403, .adminRequired⟩, db) := by
  refine ⟨?_, ?_, ?_⟩ <;>
    simp [create_system_setting, update_system_setting, delete_system_setting, h]

/-- Witness for C6 at a concrete non-admin user and database. -/
theorem system_settings_admin_gate_witness :
    create_system_setting ⟨[], [], [], [], 1, 1, 1, 1, 0⟩ ⟨7, false⟩
        ⟨some "k", some "v", none⟩ =
      (⟨403, .adminRequired⟩, ⟨[], [], [], [], 1, 1, 1, 1, 0⟩) ∧
    update_system_setting ⟨[], [], [], [], 1, 1, 1, 1, 0⟩ ⟨7, false⟩ 3
        ⟨some "k", some "v", none⟩ =
      (⟨403, .adminRequired⟩, ⟨[], [], [], [], 1, 1, 1, 1, 0⟩) ∧
    delete_system_setting ⟨[], [], [], [], 1, 1, 1, 1, 0⟩ ⟨7, false⟩ 3 =
      (⟨403, .adminRequired⟩, ⟨[], [], [], [], 1, 1, 1, 1, 0⟩) :=
  system_settings_admin_gate ⟨[], [], [], [], 1, 1, 1, 1, 0⟩ ⟨7, false⟩
    ⟨some "k", some "v", none⟩ 3 rfl

/-! ## C9 -/

/-- C9: reading system settings requires only authentication, not admin
status — `GET /system` returns all settings and `GET /system/<key>`
returns the setting with that key (404 when absent) for every
authenticated user, and the result does not depend on `is_admin`; in
contrast, the mutating `/system` endpoints answer 403 for non-admins. -/
theorem system_setting_reads_not_admin_gated (db : DB) (u v : User) (key : String)
    (body : SystemSettingBody) (setting_id : Nat) (s : SystemSetting)
    (hu : u.is_admin = false)
    (hfound : db.settings.find? (fun x => x.key == key) = some s) :
    get_system_settings db u = ⟨200, .settingsList db.settings⟩ ∧
    get_system_settings db u = get_system_settings db v ∧
    get_system_setting_by_key db u key = get_system_setting_by_key db v key ∧
    get_system_setting_by_key db u key = ⟨200, .settingItem s⟩ ∧
    (∀ k2, db.settings.find? (fun x => x.key == k2) = none →
       get_system_setting_by_key db u k2 = ⟨404, .settingNotFound⟩) ∧
    (create_system_setting db u body).1 = ⟨403, .adminRequired⟩ ∧
    (update_system_setting db u setting_id body).1 = ⟨403, .adminRequired⟩ ∧
    (delete_system_setting db u setting_id).1 = ⟨403, .adminRequired⟩ := by
  refine ⟨rfl, rfl, ?_, ?_, ?_, ?_, ?_, ?_⟩
  · simp [get_system_setting_by_key]
  · simp [get_system_setting_by_key, hfound]
  · intro k2 hk2
    simp [get_system_setting_by_key, hk2]
  · simp [create_system_setting, hu]
  · simp [update_system_setting, hu]
  · simp [delete_system_setting, hu]

/-- Witness for C9 at a concrete database holding one setting and a
concrete non-admin user. -/
theorem system_setting_reads_not_admin_gated_witness :
    get_system_settings ⟨[], [], [], [⟨1, "a", "1", none, 0⟩], 1, 1, 1, 2, 0⟩ ⟨5, false⟩ =
      ⟨200, .settingsList [⟨1, "a", "1", none, 0⟩]⟩ ∧
    get_system_settings ⟨[], [], [], [⟨1, "a", "1", none, 0⟩], 1, 1, 1, 2, 0⟩ ⟨5, false⟩ =
      get_system_settings ⟨[], [], [], [⟨1, "a", "1", none, 0⟩], 1, 1, 1, 2, 0⟩ ⟨6, true⟩ ∧
    get_system_setting_by_key ⟨[], [], [], [⟨1, "a", "1", none, 0⟩], 1, 1, 1, 2, 0⟩ ⟨5, false⟩ "a" =
      get_system_setting_by_key ⟨[], [], [], [⟨1, "a", "1", none, 0⟩], 1, 1, 1, 2, 0⟩ ⟨6, true⟩ "a" ∧
    get_system_setting_by_key ⟨[], [], [], [⟨1, "a", "1", none, 0⟩], 1, 1, 1, 2, 0⟩ ⟨5, false⟩ "a" =
      ⟨200, .settingItem ⟨1, "a", "1", none, 0⟩⟩ ∧
    (∀ k2, (⟨[], [], [], [⟨1, "a", "1", none, 0⟩], 1, 1, 1, 2, 0⟩ : DB).settings.find?
        (fun x => x.key == k2) = none →
       get_system_setting_by_key ⟨[], [], [], [⟨1, "a", "1", none, 0⟩], 1, 1, 1, 2, 0⟩ ⟨5, false⟩ k2 =
         ⟨404, .settingNotFound⟩) ∧
    (create_system_setting ⟨[], [], [], [⟨1, "a", "1", none, 0⟩], 1, 1, 1, 2, 0⟩ ⟨5, false⟩
        ⟨some "k", some "v", none⟩).1 = ⟨403, .adminRequired⟩ ∧
    (update_system_setting ⟨[], [], [], [⟨1, "a", "1", none, 0⟩], 1, 1, 1, 2, 0⟩ ⟨5, false⟩ 1
        ⟨some "k", some "v", none⟩).1 = ⟨403, .adminRequired⟩ ∧
    (delete_system_setting ⟨[], [], [], [⟨1, "a", "1", none, 0⟩], 1, 1, 1, 2, 0⟩ ⟨5, false⟩ 1).1 =
      ⟨403, .adminRequired⟩ :=
  system_setting_reads_not_admin_gated ⟨[], [], [], [⟨1, "a", "1", none, 0⟩], 1, 1, 1, 2, 0⟩
    ⟨5, false⟩ ⟨6, true⟩ "a" ⟨some "k", some "v", none⟩ 1 ⟨1, "a", "1", none, 0⟩ rfl rfl

/-! ## C7 -/

/-- C7: every mutating chat endpoint validates its body before any state
change — a title must be non-empty after stripping, message content must
be non-empty after stripping, and a failing request is answered 400
`Validation error` with the database unchanged. -/
theorem validation_rejects_before_state_change (db : DB) (u : User)
    (conversation_id : Nat) (cbody : ConversationBody) (mbody : SendMessageBody)
    (p : List ChatMessage → Except String String) (chunks : List String)
    (stream_error : Option String)
    (hc : load_create_conversation cbody = none)
    (hm : load_send_message mbody = none) :
    create_conversation db u cbody = (⟨400, .validationError⟩, db) ∧
    update_conversation_title db u conversation_id cbody = (⟨400, .validationError⟩, db) ∧
    send_message db u conversation_id mbody p = ⟨⟨400, .validationError⟩, db, none⟩ ∧
    stream_message db u conversation_id mbody chunks stream_error =
      ⟨⟨400, .validationError⟩, [], db, none⟩ ∧
    (∀ t : String, load_create_conversation ⟨some t⟩ = none ↔ pyStrip t = "") ∧
    load_create_conversation ⟨none⟩ = none ∧
    (∀ (c : String) (cii : Option (Option Int)),
       load_send_message ⟨some c, cii⟩ = none ↔ pyStrip c = "") ∧
    (∀ cii, load_send_message ⟨none, cii⟩ = none) := by
  refine ⟨?_, ?_, ?_, ?_, ?_, rfl, ?_, fun _ => rfl⟩
  · simp [create_conversation, hc]
  · simp [update_conversation_title, hc]
  · simp [send_message, hm]
  · simp [stream_message, hm]
  · intro t
    simp [load_create_conversation, Nat.pos_iff_ne_zero, string_length_eq_zero_iff]
  · intro c cii
    simp [load_send_message, Nat.pos_iff_ne_zero, string_length_eq_zero_iff]

/-- Witness for C7 at concrete whitespace-only bodies. -/
theorem validation_rejects_before_state_change_witness :
    create_conversation ⟨[], [], [], [], 1, 1, 1, 1, 0⟩ ⟨1, false⟩ ⟨some "  "⟩ =
      (⟨400, .validationError⟩, ⟨[], [], [], [], 1, 1, 1, 1, 0⟩) ∧
    update_conversation_title ⟨[], [], [], [], 1, 1, 1, 1, 0⟩ ⟨1, false⟩ 1 ⟨some "  "⟩ =
      (⟨400, .validationError⟩, ⟨[], [], [], [], 1, 1, 1, 1, 0⟩) ∧
    send_message ⟨[], [], [], [], 1, 1, 1, 1, 0⟩ ⟨1, false⟩ 1 ⟨some " ", none⟩
        (fun _ => .error "x") =
      ⟨⟨400, .validationError⟩, ⟨[], [], [], [], 1, 1, 1, 1, 0⟩, none⟩ ∧
    stream_message ⟨[], [], [], [], 1, 1, 1, 1, 0⟩ ⟨1, false⟩ 1 ⟨some " ", none⟩ [] none =
      ⟨⟨400, .validationError⟩, [], ⟨[], [], [], [], 1, 1, 1, 1, 0⟩, none⟩ ∧
    (∀ t : String, load_create_conversation ⟨some t⟩ = none ↔ pyStrip t = "") ∧
    load_create_conversation ⟨none⟩ = none ∧
    (∀ (c : String) (cii : Option (Option Int)),
       load_send_message ⟨some c, cii⟩ = none ↔ pyStrip c = "") ∧
    (∀ cii, load_send_message ⟨none, cii⟩ = none) :=
  validation_rejects_before_state_change ⟨[], [], [], [], 1, 1, 1, 1, 0⟩ ⟨1, false⟩ 1
    ⟨some "  "⟩ ⟨some " ", none⟩ (fun _ => .error "x") [] none (by decide) (by decide)

/-! ## C3 -/

/-- C3: every conversation-scoped operation that targets a conversation
which does not exist or is not owned by the authenticated user answers
404 `Conversation not found` and leaves the database unchanged, and the
conversation listing returns exactly the user's own conversations. -/
theorem conversation_ownership (db : DB) (u : User) (conversation_id message_id : Nat)
    (cbody : ConversationBody) (mbody : SendMessageBody)
    (p : List ChatMessage → Except String String) (chunks : List String)
    (stream_error : Option String)
    (hnone : ∀ c ∈ db.conversations, ¬(c.id = conversation_id ∧ c.user_id = u.id))
    (hc : (load_create_conversation cbody).isSome)
    (hm : (load_send_message mbody).isSome) :
    get_conversation db u conversation_id = ⟨404, .conversationNotFound⟩ ∧
    send_message db u conversation_id mbody p = ⟨⟨404, .conversationNotFound⟩, db, none⟩ ∧
    stream_message db u conversation_id mbody chunks stream_error =
      ⟨⟨404, .conversationNotFound⟩, [], db, none⟩ ∧
    delete_conversation db u conversation_id = (⟨404, .conversationNotFound⟩, db) ∧
    update_conversation_title db u conversation_id cbody = (⟨404, .conversationNotFound⟩, db) ∧
    delete_message db u conversation_id message_id = (⟨404, .conversationNotFound⟩, db) ∧
    get_conversations db u =
      ⟨200, .conversations (db.conversations.filter (fun c => c.user_id == u.id))⟩ ∧
    (∀ c ∈ db.conversations.filter (fun c => c.user_id == u.id), c.user_id = u.id) ∧
    (∀ c ∈ db.conversations, c.user_id = u.id →
       c ∈ db.conversations.filter (fun c => c.user_id == u.id)) := by
  have hfind : find_owned_conversation db u conversation_id = none := by
    unfold find_owned_conversation
    rw [List.find?_eq_none]
    intro c hcmem
    simpa using hnone c hcmem
  obtain ⟨t, ht⟩ := Option.isSome_iff_exists.mp hc
  obtain ⟨d, hd⟩ := Option.isSome_iff_exists.mp hm
  refine ⟨?_, ?_, ?_, ?_, ?_, ?_, rfl, ?_, ?_⟩
  · simp [get_conversation, hfind]
  · simp [send_message, hd, hfind]
  · simp [stream_message, hd, hfind]
  · simp [delete_conversation, hfind]
  · simp [update_conversation_title, ht, hfind]
  · simp [delete_message, hfind]
  · intro c hcmem
    simpa using (List.mem_filter.mp hcmem).2
  · intro c hcmem hc2
    exact List.mem_filter.mpr ⟨hcmem, by simpa using hc2⟩

/-- Witness for C3: a database whose only conversation belongs to user 2,
queried as user 1. -/
theorem conversation_ownership_witness :
    get_conversation ⟨[⟨1, 2, "t", 0⟩], [], [], [], 2, 1, 1, 1, 0⟩ ⟨1, false⟩ 1 =
      ⟨404, .conversationNotFound⟩ ∧
    send_message ⟨[⟨1, 2, "t", 0⟩], [], [], [], 2, 1, 1, 1, 0⟩ ⟨1, false⟩ 1
        ⟨some "hi", none⟩ (fun _ => .error "x") =
      ⟨⟨404, .conversationNotFound⟩, ⟨[⟨1, 2, "t", 0⟩], [], [], [], 2, 1, 1, 1, 0⟩, none⟩ ∧
    stream_message ⟨[⟨1, 2, "t", 0⟩], [], [], [], 2, 1, 1, 1, 0⟩ ⟨1, false⟩ 1
        ⟨some "hi", none⟩ [] none =
      ⟨⟨404, .conversationNotFound⟩, [], ⟨[⟨1, 2, "t", 0⟩], [], [], [], 2, 1, 1, 1, 0⟩, none⟩ ∧
    delete_conversation ⟨[⟨1, 2, "t", 0⟩], [], [], [], 2, 1, 1, 1, 0⟩ ⟨1, false⟩ 1 =
      (⟨404, .conversationNotFound⟩, ⟨[⟨1, 2, "t", 0⟩], [], [], [], 2, 1, 1, 1, 0⟩) ∧
    update_conversation_title ⟨[⟨1, 2, "t", 0⟩], [], [], [], 2, 1, 1, 1, 0⟩ ⟨1, false⟩ 1
        ⟨some "new"⟩ =
      (⟨404, .conversationNotFound⟩, ⟨[⟨1, 2, "t", 0⟩], [], [], [], 2, 1, 1, 1, 0⟩) ∧
    delete_message ⟨[⟨1, 2, "t", 0⟩], [], [], [], 2, 1, 1, 1, 0⟩ ⟨1, false⟩ 1 1 =
      (⟨404, .conversationNotFound⟩, ⟨[⟨1, 2, "t", 0⟩], [], [], [], 2, 1, 1, 1, 0⟩) ∧
    get_conversations ⟨[⟨1, 2, "t", 0⟩], [], [], [], 2, 1, 1, 1, 0⟩ ⟨1, false⟩ =
      ⟨200, .conversations ((⟨[⟨1, 2, "t", 0⟩], [], [], [], 2, 1, 1, 1, 0⟩ : DB).conversations.filter
        (fun c => c.user_id == (⟨1, false⟩ : User).id))⟩ ∧
    (∀ c ∈ (⟨[⟨1, 2, "t", 0⟩], [], [], [], 2, 1, 1, 1, 0⟩ : DB).conversations.filter
        (fun c => c.user_id == (⟨1, false⟩ : User).id), c.user_id = 1) ∧
    (∀ c ∈ (⟨[⟨1, 2, "t", 0⟩], [], [], [], 2, 1, 1, 1, 0⟩ : DB).conversations,
       c.user_id = 1 →
       c ∈ (⟨[⟨1, 2, "t", 0⟩], [], [], [], 2, 1, 1, 1, 0⟩ : DB).conversations.filter
         (fun c => c.user_id == (⟨1, false⟩ : User).id)) :=
  conversation_ownership ⟨[⟨1, 2, "t", 0⟩], [], [], [], 2, 1, 1, 1, 0⟩ ⟨1, false⟩ 1 1
    ⟨some "new"⟩ ⟨some "hi", none⟩ (fun _ => .error "x") [] none (by decide) (by decide) (by decide)

/-! ## C1 -/

/-- C1: in the non-streaming chat turn, a failing AI proxy call rolls
the session back — the database (including the just-added user message)
is unchanged — and the endpoint answers 500 with an `AI service error`
body; a successful call persists the user and assistant messages,
refreshes the conversation's `updated_at`, and answers 200 with both
saved messages. -/
theorem send_message_turn (db : DB) (u : User) (conversation_id : Nat)
    (body : SendMessageBody) (p : List ChatMessage → Except String String)
    (content : String) (cii : Option (Option Int)) (conversation : Conversation)
    (custom_instruction : Option CustomInstruction) (sent : List ChatMessage)
    (hload : load_send_message body = some (content, cii))
    (hconv : find_owned_conversation db u conversation_id = some conversation)
    (hci : resolve_custom_instruction db u cii = .ok custom_instruction)
    (hsent : sent = prepare_messages
        (conversation_history (stage_user_message db conversation_id content) conversation_id)
        (custom_instruction.map (fun i => i.content))) :
    (∀ e, p sent = .error e →
       send_message db u conversation_id body p =
         ⟨⟨500, .aiServiceError
             ("AI service error: " ++ ("Failed to get AI response: " ++ e))⟩,
          db, some sent⟩) ∧
    (∀ r, p sent = .ok r →
       (send_message db u conversation_id body p).resp.status = 200 ∧
       (send_message db u conversation_id body p).resp.body =
         .chatTurn (new_user_message db conversation_id content)
           ⟨db.nextMessageId + 1, conversation_id, "assistant", r⟩ ∧
       (send_message db u conversation_id body p).db.messages =
         db.messages ++ [new_user_message db conversation_id content,
                         ⟨db.nextMessageId + 1, conversation_id, "assistant", r⟩] ∧
       (∀ c ∈ (send_message db u conversation_id body p).db.conversations,
          c.id = conversation_id → c.updated_at = db.now)) := by
  subst hsent
  constructor
  · intro e he
    simp [send_message, hload, hconv, hci, AIService_get_response, he]
  · intro r hr
    simp only [send_message, hload, hconv, hci, AIService_get_response, hr]
    refine ⟨trivial, ?_, ?_, ?_⟩
    · simp [stage_user_message]
    · simp [touch_conversation, stage_user_message, new_user_message,
        List.append_assoc]
    · intro c hcmem hcid
      simp only [touch_conversation, stage_user_message, List.mem_map] at hcmem
      obtain ⟨c0, _, hc0⟩ := hcmem
      by_cases h : c0.id = conversation_id
      · simp [h] at hc0
        simp [← hc0]
      · simp [h] at hc0
        rw [← hc0] at hcid
        exact absurd hcid h

/-- Witness for C1: a one-conversation database; the error case is
exercised with an always-failing provider, the success case with a
constant provider. -/
theorem send_message_turn_witness :
    send_message ⟨[⟨1, 1, "t", 0⟩], [], [], [], 2, 1, 1, 1, 9⟩ ⟨1, false⟩ 1
        ⟨some "hi", none⟩ (fun _ => .error "boom") =
      ⟨⟨500, .aiServiceError
          ("AI service error: " ++ ("Failed to get AI response: " ++ "boom"))⟩,
       ⟨[⟨1, 1, "t", 0⟩], [], [], [], 2, 1, 1, 1, 9⟩,
       some (prepare_messages
         (conversation_history
           (stage_user_message ⟨[⟨1, 1, "t", 0⟩], [], [], [], 2, 1, 1, 1, 9⟩ 1 "hi") 1)
         none)⟩ ∧
    (send_message ⟨[⟨1, 1, "t", 0⟩], [], [], [], 2, 1, 1, 1, 9⟩ ⟨1, false⟩ 1
        ⟨some "hi", none⟩ (fun _ => .ok "yo")).resp.status = 200 ∧
    (send_message ⟨[⟨1, 1, "t", 0⟩], [], [], [], 2, 1, 1, 1, 9⟩ ⟨1, false⟩ 1
        ⟨some "hi", none⟩ (fun _ => .ok "yo")).db.messages =
      [⟨1, 1, "user", "hi"⟩, ⟨2, 1, "assistant", "yo"⟩] := by
  refine ⟨?_, ?_, ?_⟩
  · exact (send_message_turn ⟨[⟨1, 1, "t", 0⟩], [], [], [], 2, 1, 1, 1, 9⟩ ⟨1, false⟩ 1
      ⟨some "hi", none⟩ (fun _ => .error "boom") "hi" none ⟨1, 1, "t", 0⟩ none _
      rfl rfl rfl rfl).1 "boom" rfl
  · exact ((send_message_turn ⟨[⟨1, 1, "t", 0⟩], [], [], [], 2, 1, 1, 1, 9⟩ ⟨1, false⟩ 1
      ⟨some "hi", none⟩ (fun _ => .ok "yo") "hi" none ⟨1, 1, "t", 0⟩ none _
      rfl rfl rfl rfl).2 "yo" rfl).1
  · have h := ((send_message_turn ⟨[⟨1, 1, "t", 0⟩], [], [], [], 2, 1, 1, 1, 9⟩ ⟨1, false⟩ 1
      ⟨some "hi", none⟩ (fun _ => .ok "yo") "hi" none ⟨1, 1, "t", 0⟩ none _
      rfl rfl rfl rfl).2 "yo" rfl).2.2.1
    simpa using h

/-! ## C2 -/

/-- C2: every streaming chat turn ends in exactly one of two ways — when
the provider iterator finishes, the event stream is the emitted chunks
followed by `data: [DONE]`, the concatenation of the chunks is persisted
as a new assistant message and the conversation's `updated_at` is
refreshed; when the provider raises, the final event is a
`data: [ERROR]: ...` line and no assistant message is persisted. -/
theorem stream_message_turn (db : DB) (u : User) (conversation_id : Nat)
    (body : SendMessageBody) (chunks : List String) (stream_error : Option String)
    (content : String) (cii : Option (Option Int)) (conversation : Conversation)
    (hload : load_send_message body = some (content, cii))
    (hconv : find_owned_conversation db u conversation_id = some conversation) :
    (stream_error = none →
       (stream_message db u conversation_id body chunks stream_error).events =
         chunks.map (fun c => "data: " ++ c ++ "\n\n") ++ ["data: [DONE]\n\n"] ∧
       (stream_message db u conversation_id body chunks stream_error).db.messages =
         db.messages ++
           [new_user_message db conversation_id content,
            ⟨db.nextMessageId + 1, conversation_id, "assistant", String.join chunks⟩] ∧
       (∀ c ∈ (stream_message db u conversation_id body chunks stream_error).db.conversations,
          c.id = conversation_id → c.updated_at = db.now)) ∧
    (∀ e, stream_error = some e →
       (stream_message db u conversation_id body chunks stream_error).events =
         chunks.map (fun c => "data: " ++ c ++ "\n\n") ++
           ["data: [ERROR]: Failed to stream AI response: " ++ e ++ "\n\n"] ∧
       (stream_message db u conversation_id body chunks stream_error).db.messages =
         db.messages ++ [new_user_message db conversation_id content] ∧
       (∀ m ∈ (stream_message db u conversation_id body chunks stream_error).db.messages,
          m.role = "assistant" → m ∈ db.messages)) := by
  constructor
  · intro hnone
    subst hnone
    simp only [stream_message, hload, hconv]
    refine ⟨trivial, ?_, ?_⟩
    · simp [touch_conversation, stage_user_message, new_user_message, List.append_assoc]
    · intro c hcmem hcid
      simp only [touch_conversation, stage_user_message, List.mem_map] at hcmem
      obtain ⟨c0, _, hc0⟩ := hcmem
      by_cases h : c0.id = conversation_id
      · simp [h] at hc0
        simp [← hc0]
      · simp [h] at hc0
        rw [← hc0] at hcid
        exact absurd hcid h
  · intro e he
    subst he
    simp only [stream_message, hload, hconv]
    refine ⟨trivial, ?_, ?_⟩
    · simp [stage_user_message, new_user_message]
    · intro m hmmem hmrole
      simp only [stage_user_message, List.mem_append, List.mem_singleton] at hmmem
      rcases hmmem with hmem | hume
      · exact hmem
      · rw [hume] at hmrole
        simp [new_user_message] at hmrole

/-- Witness for C2 at a concrete conversation, one success stream of two
chunks and one failing stream. -/
theorem stream_message_turn_witness :
    (stream_message ⟨[⟨1, 1, "t", 0⟩], [], [], [], 2, 1, 1, 1, 9⟩ ⟨1, false⟩ 1
        ⟨some "hi", none⟩ ["a", "b"] none).events =
      ["data: a\n\n", "data: b\n\n", "data: [DONE]\n\n"] ∧
    (stream_message ⟨[⟨1, 1, "t", 0⟩], [], [], [], 2, 1, 1, 1, 9⟩ ⟨1, false⟩ 1
        ⟨some "hi", none⟩ ["a", "b"] none).db.messages =
      [⟨1, 1, "user", "hi"⟩, ⟨2, 1, "assistant", "ab"⟩] ∧
    (stream_message ⟨[⟨1, 1, "t", 0⟩], [], [], [], 2, 1, 1, 1, 9⟩ ⟨1, false⟩ 1
        ⟨some "hi", none⟩ ["a"] (some "boom")).events =
      ["data: a\n\n", "data: [ERROR]: Failed to stream AI response: boom\n\n"] ∧
    (stream_message ⟨[⟨1, 1, "t", 0⟩], [], [], [], 2, 1, 1, 1, 9⟩ ⟨1, false⟩ 1
        ⟨some "hi", none⟩ ["a"] (some "boom")).db.messages =
      [⟨1, 1, "user", "hi"⟩] := by
  have hok := (stream_message_turn ⟨[⟨1, 1, "t", 0⟩], [], [], [], 2, 1, 1, 1, 9⟩
    ⟨1, false⟩ 1 ⟨some "hi", none⟩ ["a", "b"] none "hi" none ⟨1, 1, "t", 0⟩
    (by decide) (by decide)).1 rfl
  have herr := (stream_message_turn ⟨[⟨1, 1, "t", 0⟩], [], [], [], 2, 1, 1, 1, 9⟩
    ⟨1, false⟩ 1 ⟨some "hi", none⟩ ["a"] (some "boom") "hi" none ⟨1, 1, "t", 0⟩
    (by decide) (by decide)).2 "boom" rfl
  refine ⟨?_, ?_, ?_, ?_⟩
  · simpa using hok.1
  · simpa using hok.2.1
  · simpa using herr.1
  · simpa using herr.2.1

/-! ## C5 -/

/-- C5: the message list sent to the completion provider begins with
exactly one system message — the selected custom instruction's content
when one is supplied (instruction contents are non-empty, having passed
schema validation), otherwise the fixed default ScubaAI prompt —
followed by the conversation's messages in their original order,
unchanged. -/
theorem provider_message_list (db : DB) (u : User) (conversation_id : Nat)
    (body : SendMessageBody) (p : List ChatMessage → Except String String)
    (content : String) (cii : Option (Option Int)) (conversation : Conversation)
    (custom_instruction : Option CustomInstruction)
    (hload : load_send_message body = some (content, cii))
    (hconv : find_owned_conversation db u conversation_id = some conversation)
    (hci : resolve_custom_instruction db u cii = .ok custom_instruction)
    (hne : ∀ i, custom_instruction = some i → i.content ≠ "") :
    (∀ msgs : List ChatMessage,
       prepare_messages msgs none = ⟨"system", default_system_prompt⟩ :: msgs) ∧
    (∀ (msgs : List ChatMessage) (s : String), s ≠ "" →
       prepare_messages msgs (some s) = ⟨"system", s⟩ :: msgs) ∧
    (∃ sys : ChatMessage,
       (send_message db u conversation_id body p).providerCall =
         some (sys :: conversation_history
           (stage_user_message db conversation_id content) conversation_id) ∧
       sys.role = "system" ∧
       (custom_instruction = none → sys.content = default_system_prompt) ∧
       (∀ i, custom_instruction = some i → sys.content = i.content)) := by
  refine ⟨fun msgs => rfl, ?_, ?_⟩
  · intro msgs s hs
    simp [prepare_messages, hs]
  · cases custom_instruction with
    | none =>
        refine ⟨⟨"system", default_system_prompt⟩, ?_, rfl, fun _ => rfl,
          fun i hi => by cases hi⟩
        simp only [send_message, hload, hconv, hci, AIService_get_response]
        split <;> simp [prepare_messages]
    | some i =>
        have hine := hne i rfl
        refine ⟨⟨"system", i.content⟩, ?_, rfl, ?_, ?_⟩
        · simp only [send_message, hload, hconv, hci, AIService_get_response]
          split <;> simp [prepare_messages, hine]
        · intro hcon
          cases hcon
        · intro j hj
          cases hj
          rfl

/-- Witness for C5 at a concrete database holding one custom instruction
which the request selects. -/
theorem provider_message_list_witness :
    (∀ msgs : List ChatMessage,
       prepare_messages msgs none = ⟨"system", default_system_prompt⟩ :: msgs) ∧
    (∀ (msgs : List ChatMessage) (s : String), s ≠ "" →
       prepare_messages msgs (some s) = ⟨"system", s⟩ :: msgs) ∧
    (∃ sys : ChatMessage,
       (send_message ⟨[⟨1, 1, "t", 0⟩], [], [⟨4, 1, "n", "be brief", false, 0⟩], [],
            2, 1, 5, 1, 9⟩ ⟨1, false⟩ 1 ⟨some "hi", some (some 4)⟩
          (fun _ => .ok "yo")).providerCall =
         some (sys :: conversation_history
           (stage_user_message ⟨[⟨1, 1, "t", 0⟩], [], [⟨4, 1, "n", "be brief", false, 0⟩],
              [], 2, 1, 5, 1, 9⟩ 1 "hi") 1) ∧
       sys.role = "system" ∧
       ((some (⟨4, 1, "n", "be brief", false, 0⟩ : CustomInstruction) : Option CustomInstruction) = none →
          sys.content = default_system_prompt) ∧
       (∀ i, (some (⟨4, 1, "n", "be brief", false, 0⟩ : CustomInstruction) : Option CustomInstruction) = some i →
          sys.content = i.content)) :=
  provider_message_list ⟨[⟨1, 1, "t", 0⟩], [], [⟨4, 1, "n", "be brief", false, 0⟩], [],
      2, 1, 5, 1, 9⟩ ⟨1, false⟩ 1 ⟨some "hi", some (some 4)⟩ (fun _ => .ok "yo")
    "hi" (some (some 4)) ⟨1, 1, "t", 0⟩ (some ⟨4, 1, "n", "be brief", false, 0⟩)
    rfl rfl rfl (by intro i hi; cases hi; decide)

/-! ## C4 -/

/-- C4 counterexample: with one conversation (id 1, user 1), no custom
instructions, and the request body supplying `custom_instruction_id = 5`,
`send_message` answers 404 `Custom instruction not found` with the
database unchanged, while `stream_message` does NOT answer 404 — it
opens the stream (status 200) and has already committed the user message
even though the provider then raises, refuting both the shared-404 and
the no-commit-before-success parts of the claim. -/
theorem send_stream_counterexample :
    send_message ⟨[⟨1, 1, "t", 0⟩], [], [], [], 2, 1, 1, 1, 9⟩ ⟨1, false⟩ 1
        ⟨some "hi", some (some 5)⟩ (fun _ => .error "x") =
      ⟨⟨404, .customInstructionNotFound⟩,
       ⟨[⟨1, 1, "t", 0⟩], [], [], [], 2, 1, 1, 1, 9⟩, none⟩ ∧
    (stream_message ⟨[⟨1, 1, "t", 0⟩], [], [], [], 2, 1, 1, 1, 9⟩ ⟨1, false⟩ 1
        ⟨some "hi", some (some 5)⟩ [] (some "x")).resp.status = 200 ∧
    (stream_message ⟨[⟨1, 1, "t", 0⟩], [], [], [], 2, 1, 1, 1, 9⟩ ⟨1, false⟩ 1
        ⟨some "hi", some (some 5)⟩ [] (some "x")).db.messages =
      [⟨1, 1, "user", "hi"⟩] :=
  ⟨rfl, rfl, rfl⟩

/-- C4 (amended): both endpoints perform the same request validation and
the same conversation-ownership check, answering identical 400/404
responses with the database unchanged; but when `custom_instruction_id`
does not resolve to an instruction owned by the user, `send_message`
answers 404 `Custom instruction not found` while `stream_message`
proceeds as if no instruction had been supplied, and `stream_message`
commits the user message before the provider call — it stays persisted
even when the provider raises — whereas `send_message` persists it only
after a successful provider call. -/
theorem send_stream_divergence (db : DB) (u : User) (cid1 cid2 : Nat)
    (vbody obody gbody : SendMessageBody)
    (p : List ChatMessage → Except String String) (chunks : List String) (e : String)
    (ocontent gcontent : String) (ocii : Option (Option Int)) (giid : Int)
    (conversation : Conversation)
    (hv : load_send_message vbody = none)
    (ho : load_send_message obody = some (ocontent, ocii))
    (hnoconv : find_owned_conversation db u cid1 = none)
    (hg : load_send_message gbody = some (gcontent, some (some giid)))
    (hgnz : giid ≠ 0)
    (hconv : find_owned_conversation db u cid2 = some conversation)
    (hnoinstr : db.instructions.find?
        (fun i => ((i.id : Int) == giid) && (i.user_id == u.id)) = none) :
    send_message db u cid1 vbody p = ⟨⟨400, .validationError⟩, db, none⟩ ∧
    stream_message db u cid1 vbody chunks (some e) =
      ⟨⟨400, .validationError⟩, [], db, none⟩ ∧
    send_message db u cid1 obody p = ⟨⟨404, .conversationNotFound⟩, db, none⟩ ∧
    stream_message db u cid1 obody chunks (some e) =
      ⟨⟨404, .conversationNotFound⟩, [], db, none⟩ ∧
    send_message db u cid2 gbody p = ⟨⟨404, .customInstructionNotFound⟩, db, none⟩ ∧
    (stream_message db u cid2 gbody chunks (some e)).resp.status = 200 ∧
    (stream_message db u cid2 gbody chunks (some e)).db.messages =
      db.messages ++ [new_user_message db cid2 gcontent] := by
  refine ⟨?_, ?_, ?_, ?_, ?_, ?_, ?_⟩
  · simp [send_message, hv]
  · simp [stream_message, hv]
  · simp [send_message, ho, hnoconv]
  · simp [stream_message, ho, hnoconv]
  · simp [send_message, hg, hconv, resolve_custom_instruction, ciiTruthy, hgnz, hnoinstr]
  · simp [stream_message, hg, hconv]
  · simp [stream_message, hg, hconv, stage_user_message]

/-- Witness for the amended C4 at concrete inputs: an empty-content body,
a missing conversation (id 2), and a body selecting the absent custom
instruction 5 on conversation 1. -/
theorem send_stream_divergence_witness :
    send_message ⟨[⟨1, 1, "t", 0⟩], [], [], [], 2, 1, 1, 1, 9⟩ ⟨1, false⟩ 2
        ⟨some " ", none⟩ (fun _ => .error "x") =
      ⟨⟨400, .validationError⟩, ⟨[⟨1, 1, "t", 0⟩], [], [], [], 2, 1, 1, 1, 9⟩, none⟩ ∧
    stream_message ⟨[⟨1, 1, "t", 0⟩], [], [], [], 2, 1, 1, 1, 9⟩ ⟨1, false⟩ 2
        ⟨some " ", none⟩ [] (some "boom") =
      ⟨⟨400, .validationError⟩, [], ⟨[⟨1, 1, "t", 0⟩], [], [], [], 2, 1, 1, 1, 9⟩, none⟩ ∧
    send_message ⟨[⟨1, 1, "t", 0⟩], [], [], [], 2, 1, 1, 1, 9⟩ ⟨1, false⟩ 2
        ⟨some "hi", none⟩ (fun _ => .error "x") =
      ⟨⟨404, .conversationNotFound⟩, ⟨[⟨1, 1, "t", 0⟩], [], [], [], 2, 1, 1, 1, 9⟩, none⟩ ∧
    stream_message ⟨[⟨1, 1, "t", 0⟩], [], [], [], 2, 1, 1, 1, 9⟩ ⟨1, false⟩ 2
        ⟨some "hi", none⟩ [] (some "boom") =
      ⟨⟨404, .conversationNotFound⟩, [], ⟨[⟨1, 1, "t", 0⟩], [], [], [], 2, 1, 1, 1, 9⟩, none⟩ ∧
    send_message ⟨[⟨1, 1, "t", 0⟩], [], [], [], 2, 1, 1, 1, 9⟩ ⟨1, false⟩ 1
        ⟨some "hi", some (some 5)⟩ (fun _ => .error "x") =
      ⟨⟨404, .customInstructionNotFound⟩,
       ⟨[⟨1, 1, "t", 0⟩], [], [], [], 2, 1, 1, 1, 9⟩, none⟩ ∧
    (stream_message ⟨[⟨1, 1, "t", 0⟩], [], [], [], 2, 1, 1, 1, 9⟩ ⟨1, false⟩ 1
        ⟨some "hi", some (some 5)⟩ [] (some "boom")).resp.status = 200 ∧
    (stream_message ⟨[⟨1, 1, "t", 0⟩], [], [], [], 2, 1, 1, 1, 9⟩ ⟨1, false⟩ 1
        ⟨some "hi", some (some 5)⟩ [] (some "boom")).db.messages =
      (⟨[⟨1, 1, "t", 0⟩], [], [], [], 2, 1, 1, 1, 9⟩ : DB).messages ++
        [new_user_message ⟨[⟨1, 1, "t", 0⟩], [], [], [], 2, 1, 1, 1, 9⟩ 1 "hi"] :=
  send_stream_divergence ⟨[⟨1, 1, "t", 0⟩], [], [], [], 2, 1, 1, 1, 9⟩ ⟨1, false⟩ 2 1
    ⟨some " ", none⟩ ⟨some "hi", none⟩ ⟨some "hi", some (some 5)⟩
    (fun _ => .error "x") [] "boom" "hi" "hi" none 5 ⟨1, 1, "t", 0⟩
    rfl rfl rfl rfl (by decide) rfl rfl

/-! ## C8 helper lemmas -/

/-- Filter length over a mapped list, when the predicate on the image
agrees pointwise with a predicate on the original element. -/
theorem length_filter_map_eq {α : Type} (l : List α) (f : α → α) (P Q : α → Bool)
    (h : ∀ x ∈ l, P (f x) = Q x) :
    ((l.map f).filter P).length = (l.filter Q).length := by
  induction l with
  | nil => rfl
  | cons a t ih =>
      have ha := h a (List.mem_cons_self a t)
      have iht := ih (fun x hx => h x (List.mem_cons_of_mem a hx))
      simp only [List.map_cons, List.filter_cons, ha]
      cases hq : Q a <;> simp [iht]

/-- Filter length over a mapped list is bounded by the filter length of
a pointwise weaker predicate on the original list. -/
theorem length_filter_map_le {α : Type} (l : List α) (f : α → α) (P Q : α → Bool)
    (h : ∀ x ∈ l, P (f x) = true → Q x = true) :
    ((l.map f).filter P).length ≤ (l.filter Q).length := by
  induction l with
  | nil => exact Nat.le_refl 0
  | cons a t ih =>
      have iht := ih (fun x hx => h x (List.mem_cons_of_mem a hx))
      simp only [List.map_cons, List.filter_cons]
      cases hp : P (f a)
      · cases hq : Q a
        · simpa using iht
        · simp only [List.length_cons]
          exact Nat.le_succ_of_le iht
      · have hqa := h a (List.mem_cons_self a t) hp
        simp only [hqa, List.length_cons]
        exact Nat.succ_le_succ iht


/-- With pairwise-distinct ids, at most one element passes a filter that
pins the id. -/
theorem length_filter_id_le_one (l : List CustomInstruction) (tid : Nat)
    (Q : CustomInstruction → Bool)
    (h : (l.map (fun i => i.id)).Nodup) :
    (l.filter (fun i => i.id == tid && Q i)).length ≤ 1 := by
  induction l with
  | nil => exact Nat.zero_le 1
  | cons a t ih =>
      rw [List.map_cons, List.nodup_cons] at h
      by_cases ha : a.id = tid
      · have ht : t.filter (fun i => i.id == tid && Q i) = [] := by
          apply List.filter_eq_nil_iff.mpr
          intro x hx
          simp only [Bool.and_eq_true, beq_iff_eq, not_and]
          intro hxid
          exact absurd (List.mem_map.mpr ⟨x, hx, by rw [hxid, ha]⟩) h.1
        simp only [List.filter_cons, ht]
        cases a.id == tid && Q a <;> simp
      · have hpa : (a.id == tid && Q a) = false := by
          simp [ha]
        simp only [List.filter_cons, hpa]
        exact ih h.2

/-- `create_custom_instruction` preserves the at-most-one-default
invariant for every user. -/
theorem create_preserves_default_invariant (db : DB) (u : User)
    (body : CustomInstructionBody)
    (hinv : ∀ w, at_most_one_default w db.instructions) :
    ∀ w, at_most_one_default w (create_custom_instruction db u body).2.instructions := by
  intro w
  unfold create_custom_instruction
  cases hl : load_custom_instruction body with
  | none => simpa using hinv w
  | some data =>
      simp only
      by_cases hw : data.2.2.getD false = true
      · simp only [hw, if_true]
        unfold at_most_one_default defaults_of at *
        rw [List.filter_append, List.length_append]
        by_cases hwu : w = u.id
        · subst hwu
          have hmap :
              (((unset_default_instruction u.id db).instructions).filter
                (fun i => i.user_id == u.id && i.is_default)).length =
              (db.instructions.filter (fun _ => false)).length := by
            unfold unset_default_instruction
            apply length_filter_map_eq
            intro x _
            by_cases hx : x.user_id = u.id <;> simp [hx]
          simp only [unset_default_instruction] at hmap ⊢
          rw [hmap]
          simp
        · have hmap :
              (((unset_default_instruction u.id db).instructions).filter
                (fun i => i.user_id == w && i.is_default)).length =
              (db.instructions.filter (fun i => i.user_id == w && i.is_default)).length := by
            unfold unset_default_instruction
            apply length_filter_map_eq
            intro x _
            by_cases hx : x.user_id = u.id
            · simp [hx, Ne.symm hwu]
            · simp [hx]
          simp only [unset_default_instruction] at hmap ⊢
          rw [hmap]
          have hone : (([(⟨db.nextInstructionId, u.id, pyStrip data.1, pyStrip data.2.1,
              data.2.2.getD false, db.now⟩ : CustomInstruction)]).filter
              (fun i => i.user_id == w && i.is_default)).length = 0 := by
            simp [Ne.symm hwu]
          rw [hw] at hone
          rw [hone]
          simpa using hinv w
      · have hw2 : data.2.2.getD false = false := by
          cases h : data.2.2.getD false
          · rfl
          · exact absurd h hw
        simp only [hw2, if_false, Bool.false_eq_true]
        unfold at_most_one_default defaults_of at *
        rw [List.filter_append, List.length_append]
        have : (([(⟨db.nextInstructionId, u.id, pyStrip data.1, pyStrip data.2.1,
            false, db.now⟩ : CustomInstruction)]).filter
            (fun i => i.user_id == w && i.is_default)).length = 0 := by
          simp
        rw [this]
        simpa using hinv w

/-- `set_default_instruction` preserves the at-most-one-default
invariant for every user. -/
theorem set_default_preserves_default_invariant (db : DB) (u : User) (tid : Nat)
    (hids : (db.instructions.map (fun i => i.id)).Nodup)
    (hinv : ∀ w, at_most_one_default w db.instructions) :
    ∀ w, at_most_one_default w (set_default_instruction db u tid).2.instructions := by
  intro w
  unfold set_default_instruction
  cases hf : db.instructions.find? (fun i => i.id == tid && i.user_id == u.id) with
  | none => simpa using hinv w
  | some instruction =>
      simp only
      unfold at_most_one_default defaults_of
      simp only [unset_default_instruction]
      rw [List.map_map]
      by_cases hwu : w = u.id
      · subst hwu
        refine le_of_eq_of_le
          (length_filter_map_eq _ _ _ (fun x => x.id == tid && x.user_id == u.id) ?_)
          (length_filter_id_le_one _ tid _ hids)
        intro x _
        by_cases h1 : x.user_id = u.id
        · by_cases h2 : x.id = tid <;> simp [Function.comp, h1, h2]
        · have e1 : (x.user_id == u.id) = false := beq_eq_false_iff_ne.mpr h1
          by_cases h2 : x.id = tid <;> simp [Function.comp, e1, h1, h2]
      · refine le_of_eq_of_le
          (length_filter_map_eq _ _ _ (fun i => i.user_id == w && i.is_default) ?_)
          (by simpa [at_most_one_default, defaults_of] using hinv w)
        intro x _
        by_cases h1 : x.user_id = u.id <;> by_cases h2 : x.id = tid <;>
          simp [Function.comp, h1, h2, Ne.symm hwu]

/-- `update_custom_instruction` preserves the at-most-one-default
invariant for every user. -/
theorem update_preserves_default_invariant (db : DB) (u : User) (tid : Nat)
    (body : CustomInstructionBody)
    (hids : (db.instructions.map (fun i => i.id)).Nodup)
    (hinv : ∀ w, at_most_one_default w db.instructions) :
    ∀ w, at_most_one_default w (update_custom_instruction db u tid body).2.instructions := by
  intro w
  unfold update_custom_instruction
  cases hl : load_custom_instruction body with
  | none => simpa using hinv w
  | some data =>
      cases hf : db.instructions.find? (fun i => i.id == tid && i.user_id == u.id) with
      | none => simpa using hinv w
      | some instruction =>
          simp only
          have hmem := List.mem_of_find?_eq_some hf
          have hpredf := List.find?_some hf
          simp only [Bool.and_eq_true, beq_iff_eq] at hpredf
          unfold at_most_one_default defaults_of
          by_cases hcond : (data.2.2.getD false && !instruction.is_default) = true
          · -- the request turns a non-default instruction into the default:
            -- the user's defaults are unset first, then only the target is set
            have hb : data.2.2 = some true := by
              rcases Bool.and_eq_true_iff.mp hcond with ⟨hgd, _⟩
              cases hbb : data.2.2 with
              | none => rw [hbb] at hgd; simp at hgd
              | some b =>
                  cases b
                  · rw [hbb] at hgd; simp at hgd
                  · rfl
            have hnd : data.2.2.getD instruction.is_default = true := by
              rw [hb]; rfl
            rw [if_pos hcond, hnd]
            simp only [unset_default_instruction]
            rw [List.map_map]
            by_cases hwu : w = u.id
            · subst hwu
              refine le_of_eq_of_le
                (length_filter_map_eq _ _ _ (fun x => x.id == tid && x.user_id == u.id) ?_)
                (length_filter_id_le_one _ tid _ hids)
              intro x _
              by_cases h1 : x.user_id = u.id
              · by_cases h2 : x.id = tid <;> simp [Function.comp, h1, h2]
              · have e1 : (x.user_id == u.id) = false := beq_eq_false_iff_ne.mpr h1
                by_cases h2 : x.id = tid <;> simp [Function.comp, e1, h1, h2]
            · refine le_of_eq_of_le
                (length_filter_map_eq _ _ _ (fun i => i.user_id == w && i.is_default) ?_)
                (by simpa [at_most_one_default, defaults_of] using hinv w)
              intro x _
              by_cases h1 : x.user_id = u.id <;> by_cases h2 : x.id = tid <;>
                simp [Function.comp, h1, h2, Ne.symm hwu]
          · rw [if_neg hcond]
            by_cases hnd : data.2.2.getD instruction.is_default = true
            · -- the final default flag of the target is true; the target
              -- was already the (unique) default, so counts are unchanged
              have hdefault : instruction.is_default = true := by
                cases hbb : data.2.2 with
                | none => rw [hbb] at hnd; simpa using hnd
                | some b =>
                    cases b
                    · rw [hbb] at hnd; simp at hnd
                    · rw [hbb] at hcond
                      simpa using hcond
              rw [hnd]
              refine le_of_eq_of_le
                (length_filter_map_eq _ _ _ (fun i => i.user_id == w && i.is_default) ?_)
                (by simpa [at_most_one_default, defaults_of] using hinv w)
              intro x hx
              by_cases hm : (x.id == tid && x.user_id == u.id) = true
              · have hm2 := hm
                simp only [Bool.and_eq_true, beq_iff_eq] at hm2
                have hx_eq : x = instruction :=
                  List.inj_on_of_nodup_map hids hx hmem (by rw [hm2.1, hpredf.1])
                simp only [hm, if_true]
                rw [hx_eq] at *
                simp [hdefault]
              · simp only [hm, Bool.false_eq_true, if_false]
            · -- the final default flag of the target is false: the target
              -- can only leave the default set, never enlarge it
              have hnd2 : data.2.2.getD instruction.is_default = false := by
                cases h : data.2.2.getD instruction.is_default
                · rfl
                · exact absurd h hnd
              rw [hnd2]
              refine Nat.le_trans
                (length_filter_map_le _ _ _ (fun i => i.user_id == w && i.is_default) ?_)
                (by simpa [at_most_one_default, defaults_of] using hinv w)
              intro x _ hp
              by_cases hm : (x.id == tid && x.user_id == u.id) = true
              · rw [hm] at hp
                simp at hp
              · simp only [hm, Bool.false_eq_true, if_false] at hp
                exact hp

/-- C8: for every user at most one custom instruction has `is_default`
set, and `create_custom_instruction`, `update_custom_instruction` and
`set_default_instruction` each preserve this invariant (each unsets the
user's existing default before marking an instruction default).
Instruction ids are assumed pairwise distinct, as for a primary key. -/
theorem default_instruction_invariant (db : DB) (u : User)
    (body : CustomInstructionBody) (instruction_id : Nat)
    (hids : (db.instructions.map (fun i => i.id)).Nodup)
    (hinv : ∀ w, at_most_one_default w db.instructions) :
    (∀ w, at_most_one_default w
        (create_custom_instruction db u body).2.instructions) ∧
    (∀ w, at_most_one_default w
        (update_custom_instruction db u instruction_id body).2.instructions) ∧
    (∀ w, at_most_one_default w
        (set_default_instruction db u instruction_id).2.instructions) :=
  ⟨create_preserves_default_invariant db u body hinv,
   update_preserves_default_invariant db u instruction_id body hids hinv,
   set_default_preserves_default_invariant db u instruction_id hids hinv⟩

/-- Witness for C8 at a concrete database holding two instructions of
user 1, the second one default, updated by a request marking the first
default. -/
theorem default_instruction_invariant_witness :
    (∀ w, at_most_one_default w
        (create_custom_instruction
          ⟨[], [], [⟨1, 1, "a", "x", false, 0⟩, ⟨2, 1, "b", "y", true, 0⟩], [],
           1, 1, 3, 1, 5⟩ ⟨1, false⟩ ⟨some "n", some "c", some true⟩).2.instructions) ∧
    (∀ w, at_most_one_default w
        (update_custom_instruction
          ⟨[], [], [⟨1, 1, "a", "x", false, 0⟩, ⟨2, 1, "b", "y", true, 0⟩], [],
           1, 1, 3, 1, 5⟩ ⟨1, false⟩ 1 ⟨some "n", some "c", some true⟩).2.instructions) ∧
    (∀ w, at_most_one_default w
        (set_default_instruction
          ⟨[], [], [⟨1, 1, "a", "x", false, 0⟩, ⟨2, 1, "b", "y", true, 0⟩], [],
           1, 1, 3, 1, 5⟩ ⟨1, false⟩ 1).2.instructions) :=
  default_instruction_invariant
    ⟨[], [], [⟨1, 1, "a", "x", false, 0⟩, ⟨2, 1, "b", "y", true, 0⟩], [],
     1, 1, 3, 1, 5⟩ ⟨1, false⟩ ⟨some "n", some "c", some true⟩ 1
    (by decide)
    (by
      intro w
      unfold at_most_one_default defaults_of
      by_cases hw : (1 : Nat) = w
      · simp [List.filter, hw]
      · have e1 : ((1 : Nat) == w) = false := beq_eq_false_iff_ne.mpr hw
        simp [List.filter, e1])

/-! ## C10 -/

/-- Length of a Python slice `s[:n]`. -/
theorem pyTake_length (s : String) (n : Nat) : (pyTake s n).length = min n s.length := by
  show (s.data.take n).length = min n s.data.length
  exact List.length_take ..

/-- C10 counterexample: with first user message `""` (length at most 50)
the code returns `New Conversation`, not the user message verbatim; and
with a 51-character user message and an AI title that strips to the
empty string, the code returns `""`, which is not non-empty. -/
theorem generate_title_counterexample :
    generate_conversation_title [⟨"user", ""⟩] none = "New Conversation" ∧
    ("" : String).length ≤ 50 ∧
    ("New Conversation" : String) ≠ "" ∧
    generate_conversation_title
      [⟨"user", "aaaaaaaaaaaaaaaaaaaaaaaaaaaaaaaaaaaaaaaaaaaaaaaaaaa"⟩]
      (some " ") = "" := by
  refine ⟨rfl, by decide, by decide, ?_⟩
  rfl

/-- C10 (amended): `generate_conversation_title` returns a string of at
most 50 characters, non-empty provided any AI-generated title is
non-empty after stripping; it returns `New Conversation` when the list
is empty, contains no user message, or the first user message is empty;
it returns the first user message verbatim when that message is
non-empty and at most 50 characters; otherwise it returns the stripped
AI title (truncated to its first 47 characters plus `...` when longer
than 50), or on AI failure the first 47 characters of the user message
followed by `...`. -/
theorem generate_title_spec (messages : List ChatMessage) (ai_title : Option String)
    (hai : ∀ t, ai_title = some t → pyStrip t ≠ "") :
    (generate_conversation_title messages ai_title).length ≤ 50 ∧
    generate_conversation_title messages ai_title ≠ "" ∧
    (messages = [] →
       generate_conversation_title messages ai_title = "New Conversation") ∧
    (first_user_content messages = none →
       generate_conversation_title messages ai_title = "New Conversation") ∧
    (first_user_content messages = some "" →
       generate_conversation_title messages ai_title = "New Conversation") ∧
    (∀ c, first_user_content messages = some c → c ≠ "" → c.length ≤ 50 →
       generate_conversation_title messages ai_title = c) ∧
    (∀ c, first_user_content messages = some c → 50 < c.length →
       (ai_title = none →
          generate_conversation_title messages ai_title = pyTake c 47 ++ "...") ∧
       (∀ t, ai_title = some t →
          generate_conversation_title messages ai_title =
            if 50 < (pyStrip t).length then pyTake (pyStrip t) 47 ++ "..."
            else pyStrip t)) := by
  cases ai_title with
  | none =>
      cases hfind : messages.find? (fun m => m.role == "user") with
      | none =>
          have hfc : first_user_content messages = none := by
            simp [first_user_content, hfind]
          have hr : generate_conversation_title messages none = "New Conversation" := by
            by_cases hemp : messages.isEmpty = true
            · simp [generate_conversation_title, hemp]
            · simp [generate_conversation_title, hemp, first_user_content, hfind]
          refine ⟨by rw [hr]; decide, by rw [hr]; decide, fun _ => hr, fun _ => hr,
            fun _ => hr, ?_, ?_⟩
          · intro c h
            rw [hfc] at h
            cases h
          · intro c h
            rw [hfc] at h
            cases h
      | some m0 =>
          have hne : messages ≠ [] := by
            intro h
            subst h
            simp at hfind
          have hempf : messages.isEmpty = false := by
            cases messages with
            | nil => exact absurd rfl hne
            | cons a l => rfl
          have hfc : first_user_content messages = some m0.content := by
            simp [first_user_content, hfind]
          by_cases hc0 : m0.content = ""
          · have hr : generate_conversation_title messages none = "New Conversation" := by
              simp [generate_conversation_title, hempf, first_user_content, hfind, hc0]
            refine ⟨by rw [hr]; decide, by rw [hr]; decide, fun _ => hr, fun _ => hr,
              fun _ => hr, ?_, ?_⟩
            · intro c2 h hne2 _
              rw [hfc] at h
              simp only [Option.some.injEq] at h
              subst h
              exact absurd hc0.symm (Ne.symm hne2)
            · intro c2 h h50
              rw [hfc] at h
              simp only [Option.some.injEq] at h
              subst h
              rw [hc0] at h50
              simp at h50
          · by_cases hc50 : m0.content.length ≤ 50
            · have hr : generate_conversation_title messages none = m0.content := by
                simp [generate_conversation_title, hempf, first_user_content, hfind,
                  hc0, hc50]
              refine ⟨by rw [hr]; exact hc50, by rw [hr]; exact hc0, ?_, ?_, ?_, ?_, ?_⟩
              · intro h
                exact absurd h hne
              · intro h
                rw [hfc] at h
                cases h
              · intro h
                rw [hfc] at h
                simp only [Option.some.injEq] at h
                exact absurd h hc0
              · intro c2 h _ _
                rw [hfc] at h
                simp only [Option.some.injEq] at h
                subst h
                exact hr
              · intro c2 h h50
                rw [hfc] at h
                simp only [Option.some.injEq] at h
                subst h
                exact absurd hc50 (Nat.not_le_of_lt h50)
            · have h50 : 50 < m0.content.length := Nat.lt_of_not_le hc50
              have h47 : 47 ≤ m0.content.length :=
                Nat.le_of_lt (Nat.lt_of_le_of_lt (by decide) h50)
              have hr : generate_conversation_title messages none =
                  pyTake m0.content 47 ++ "..." := by
                simp [generate_conversation_title, hempf, first_user_content, hfind,
                  hc0, hc50, h50]
              have hlen : (pyTake m0.content 47 ++ "...").length = 50 := by
                rw [String.length_append, pyTake_length, Nat.min_eq_left h47]
                decide
              refine ⟨by rw [hr, hlen], ?_, ?_, ?_, ?_, ?_, ?_⟩
              · rw [hr]
                intro h
                rw [h] at hlen
                simp at hlen
              · intro h
                exact absurd h hne
              · intro h
                rw [hfc] at h
                cases h
              · intro h
                rw [hfc] at h
                simp only [Option.some.injEq] at h
                exact absurd h hc0
              · intro c2 h _ hle
                rw [hfc] at h
                simp only [Option.some.injEq] at h
                subst h
                exact absurd hle hc50
              · intro c2 h _
                rw [hfc] at h
                simp only [Option.some.injEq] at h
                subst h
                exact ⟨fun _ => hr, fun t ht => by cases ht⟩
  | some t =>
      have htne : pyStrip t ≠ "" := hai t rfl
      cases hfind : messages.find? (fun m => m.role == "user") with
      | none =>
          have hfc : first_user_content messages = none := by
            simp [first_user_content, hfind]
          have hr : generate_conversation_title messages (some t) = "New Conversation" := by
            by_cases hemp : messages.isEmpty = true
            · simp [generate_conversation_title, hemp]
            · simp [generate_conversation_title, hemp, first_user_content, hfind]
          refine ⟨by rw [hr]; decide, by rw [hr]; decide, fun _ => hr, fun _ => hr,
            fun _ => hr, ?_, ?_⟩
          · intro c h
            rw [hfc] at h
            cases h
          · intro c h
            rw [hfc] at h
            cases h
      | some m0 =>
          have hne : messages ≠ [] := by
            intro h
            subst h
            simp at hfind
          have hempf : messages.isEmpty = false := by
            cases messages with
            | nil => exact absurd rfl hne
            | cons a l => rfl
          have hfc : first_user_content messages = some m0.content := by
            simp [first_user_content, hfind]
          by_cases hc0 : m0.content = ""
          · have hr : generate_conversation_title messages (some t) = "New Conversation" := by
              simp [generate_conversation_title, hempf, first_user_content, hfind, hc0]
            refine ⟨by rw [hr]; decide, by rw [hr]; decide, fun _ => hr, fun _ => hr,
              fun _ => hr, ?_, ?_⟩
            · intro c2 h hne2 _
              rw [hfc] at h
              simp only [Option.some.injEq] at h
              subst h
              exact absurd hc0.symm (Ne.symm hne2)
            · intro c2 h h50
              rw [hfc] at h
              simp only [Option.some.injEq] at h
              subst h
              rw [hc0] at h50
              simp at h50
          · by_cases hc50 : m0.content.length ≤ 50
            · have hr : generate_conversation_title messages (some t) = m0.content := by
                simp [generate_conversation_title, hempf, first_user_content, hfind,
                  hc0, hc50]
              refine ⟨by rw [hr]; exact hc50, by rw [hr]; exact hc0, ?_, ?_, ?_, ?_, ?_⟩
              · intro h
                exact absurd h hne
              · intro h
                rw [hfc] at h
                cases h
              · intro h
                rw [hfc] at h
                simp only [Option.some.injEq] at h
                exact absurd h hc0
              · intro c2 h _ _
                rw [hfc] at h
                simp only [Option.some.injEq] at h
                subst h
                exact hr
              · intro c2 h h50
                rw [hfc] at h
                simp only [Option.some.injEq] at h
                subst h
                exact absurd hc50 (Nat.not_le_of_lt h50)
            · have h50 : 50 < m0.content.length := Nat.lt_of_not_le hc50
              have hr : generate_conversation_title messages (some t) =
                  if 50 < (pyStrip t).length then pyTake (pyStrip t) 47 ++ "..."
                  else pyStrip t := by
                simp only [generate_conversation_title, hempf, Bool.false_eq_true,
                  if_false, first_user_content, hfind, Option.map_some']
                rw [if_neg hc0, if_neg hc50]
              have hmain : (generate_conversation_title messages (some t)).length ≤ 50 ∧
                  generate_conversation_title messages (some t) ≠ "" := by
                rw [hr]
                by_cases ht50 : 50 < (pyStrip t).length
                · rw [if_pos ht50]
                  have h47t : 47 ≤ (pyStrip t).length :=
                    Nat.le_of_lt (Nat.lt_of_le_of_lt (by decide) ht50)
                  have hlen : (pyTake (pyStrip t) 47 ++ "...").length = 50 := by
                    rw [String.length_append, pyTake_length, Nat.min_eq_left h47t]
                    decide
                  constructor
                  · rw [hlen]
                  · intro h
                    rw [h] at hlen
                    simp at hlen
                · rw [if_neg ht50]
                  exact ⟨Nat.le_of_not_lt ht50, htne⟩
              refine ⟨hmain.1, hmain.2, ?_, ?_, ?_, ?_, ?_⟩
              · intro h
                exact absurd h hne
              · intro h
                rw [hfc] at h
                cases h
              · intro h
                rw [hfc] at h
                simp only [Option.some.injEq] at h
                exact absurd h hc0
              · intro c2 h _ hle
                rw [hfc] at h
                simp only [Option.some.injEq] at h
                subst h
                exact absurd hle hc50
              · intro c2 h _
                rw [hfc] at h
                simp only [Option.some.injEq] at h
                subst h
                constructor
                · intro hn
                  cases hn
                · intro t2 ht2
                  simp only [Option.some.injEq] at ht2
                  subst ht2
                  exact hr

/-- Witness for the amended C10: a 51-character user message with an AI
title that strips to `Short title`. -/
theorem generate_title_spec_witness :
    (generate_conversation_title
        [⟨"user", "aaaaaaaaaaaaaaaaaaaaaaaaaaaaaaaaaaaaaaaaaaaaaaaaaaa"⟩]
        (some " Short title ")).length ≤ 50 ∧
    generate_conversation_title
        [⟨"user", "aaaaaaaaaaaaaaaaaaaaaaaaaaaaaaaaaaaaaaaaaaaaaaaaaaa"⟩]
        (some " Short title ") ≠ "" := by
  have h := generate_title_spec
    [⟨"user", "aaaaaaaaaaaaaaaaaaaaaaaaaaaaaaaaaaaaaaaaaaaaaaaaaaa"⟩]
    (some " Short title ")
    (by intro t ht; cases ht; decide)
  exact ⟨h.1, h.2.1⟩

end ScubaAI
